import Mathlib

/-
Verification of the DNS-zone resource reconciler of the
terraform-provider-bunny repository.

The Go sources are shallowly embedded as executable Lean definitions:
the generic `map[string]interface{}` block values become association
lists over a small `Value` type, the `*schema.ResourceData` record
becomes an explicit `ResourceData` structure, the bunny REST client
becomes a record of response functions (a deterministic backend), and
Go panics (failed type assertions, nil dereferences) are made explicit
with a `PanicOr` result type, so that the control flow of every handler
is reproduced faithfully, mutation by mutation.
-/

set_option autoImplicit false

namespace BunnyDns

/-- Values stored in a Terraform nested-block element
(`map[string]interface{}` entries hold strings and booleans here). -/
inductive Value where
  | str (s : String)
  | boolV (b : Bool)
deriving DecidableEq, Repr

/-- Go type `structure` (src): a nested Terraform block, commonly a
`map[string]interface{}` element of a one-element list; embedded as an
association list. -/
abbrev Structure := List (String × Value)

/-- Map indexing `m[key]`: `none` models the nil interface a Go map
returns for an absent key. -/
def Structure.get? (m : Structure) (key : String) : Option Value :=
  (m.find? (fun p => decide (p.1 = key))).map (fun p => p.2)

/-- Schema keys of the dns-zone resource (src, `resource_dns_zone`). -/
def keyDnsZoneDomain : String := "domain"

def keyDnsZoneCustomNameservers : String := "custom_nameservers"

def keyDnsZoneCustomNameserversEnabled : String := "enabled"

def keyDnsZoneCustomNameserversSoaEmail : String := "soa_email"

def keyDnsZoneCustomNameserversNameserver1 : String := "nameserver_1"

def keyDnsZoneCustomNameserversNameserver2 : String := "nameserver_2"

def keyDnsZoneLogging : String := "logging"

def keyDnsZoneLoggingEnabled : String := "enabled"

def keyDnsZoneLoggingIpAnonymization : String := "ip_anonymization"

def keyDnsZoneLoggingIpAnonymizationEnabled : String := "ip_anonymization_enabled"

def keyLastUpdated : String := "last_updated"

/-- Modelled from the spec: `keyHeaders` is declared outside the provided
sources (in the repository's pull-zone resource file) as the pull-zone
headers attribute key. All that matters to the dns-zone handlers is that
it is none of the dns-zone schema keys. -/
def keyHeaders : String := "headers"

/-- The canonical anonymization name→code table (src, `part_000`). -/
def dnsZoneLoggingAnonymizationTypesStr : List (String × Int) :=
  [("remove_octet", 0), ("drop_ip", 1)]

/-- Modelled from the spec: `reverseStrIntMap` is declared outside the
provided sources; per the spec's enum-translation helper, the reverse
code→name table is derived from the canonical name→code table. -/
def reverseStrIntMap (m : List (String × Int)) : List (Int × String) :=
  m.map (fun p => (p.2, p.1))

/-- The derived code→name table (src, `part_000`). -/
def dnsZoneLoggingAnonymizationTypesInt : List (Int × String) :=
  reverseStrIntMap dnsZoneLoggingAnonymizationTypesStr

/-- Modelled from the spec: `strIntMapKeysSorted` is declared outside the
provided sources; per the spec it is the sorted set of valid names
derived from the canonical table. -/
def strIntMapKeysSorted (m : List (String × Int)) : List String :=
  (m.map (fun p => p.1)).mergeSort (fun a b => decide (a ≤ b))

/-- The sorted list of accepted anonymization names (src, `part_000`). -/
def dnsZoneLoggingAnonymizationTypeKeys : List String :=
  strIntMapKeysSorted dnsZoneLoggingAnonymizationTypesStr

/-- Name→code lookup (src, `dnsZoneLoggingAnonymizationTypeToInt`):
a map hit returns the code, a miss fails naming the offending input
(the Go error text formats the input with %q). -/
def dnsZoneLoggingAnonymizationTypeToInt (anonymizationType : String) :
    Except String Int :=
  match dnsZoneLoggingAnonymizationTypesStr.find?
      (fun p => decide (p.1 = anonymizationType)) with
  | some p => Except.ok p.2
  | none =>
      Except.error
        ("unsupported IP anonymization type: \x22" ++ anonymizationType ++ "\x22")

/-- Modelled from the spec: `intStrMapGet` is declared outside the provided
sources; per the spec's enum-translation helper, lookup by code fails
analogously to lookup by name, with an unsupported-value error naming the
input; the code argument is the entity's nullable field. -/
def intStrMapGet (m : List (Int × String)) (key : Option Int) :
    Except String String :=
  match key with
  | none => Except.error "unsupported value: nil"
  | some k =>
      match m.find? (fun p => decide (p.1 = k)) with
      | some p => Except.ok p.2
      | none => Except.error ("unsupported value: " ++ toString k)

/-- Result of Go code that may panic (failed type assertion, nil
dereference): the panic carries its runtime message. -/
inductive PanicOr (α : Type) where
  | panicked (msg : String)
  | ok (a : α)
deriving DecidableEq, Repr

instance : Monad PanicOr where
  pure a := PanicOr.ok a
  bind x f :=
    match x with
    | PanicOr.panicked m => PanicOr.panicked m
    | PanicOr.ok a => f a

/-- The Go runtime message for a type assertion on a nil interface
(`d.Get` of a key absent from the schema returns nil). -/
def goNilInterfaceConversion : String :=
  "interface conversion: interface is nil, not []interface"

/-- The `*schema.ResourceData` of the dns-zone resource: the resource id
plus the schema's fields. The two optional blocks are lists of zero or
one `Structure` elements, as the SDK represents nested blocks. -/
structure ResourceData where
  id : String := ""
  domain : String := ""
  customNameservers : List Structure := []
  logging : List Structure := []
  lastUpdated : String := ""
deriving DecidableEq, Repr

/-- `d.Get` for list-typed attributes. The dns-zone schema declares
exactly two block attributes; for any other key the SDK's `Get` returns
nil (modelled as `none`), on which a Go type assertion panics. -/
def ResourceData.getList (d : ResourceData) (key : String) :
    Option (List Structure) :=
  if key = keyDnsZoneCustomNameservers then some d.customNameservers
  else if key = keyDnsZoneLogging then some d.logging
  else none

/-- `structureFromResource` (src): despite its doc comment promising the
field with the passed `key`, the body reads `d.Get(keyHeaders)`; the
embedding reproduces that. A nil `Get` result makes the `[]interface`
assertion panic; a list of length 0 yields nil; length other than 1
panics; otherwise the single element is returned. -/
def structureFromResource (d : ResourceData) (key : String) :
    PanicOr (Option Structure) :=
  match d.getList keyHeaders with
  | none => PanicOr.panicked goNilInterfaceConversion
  | some list =>
      match list with
      | [] => PanicOr.ok none
      | [m] => PanicOr.ok (some m)
      | _ =>
          PanicOr.panicked
            ("expected list with length 0 or 1, got length: " ++
              toString list.length)

/-- Go `len` on a possibly-nil `structure` map (nil has length 0). -/
def structLen : Option Structure → Nat
  | none => 0
  | some m => m.length

/-- Modelled from the spec: `getStrPtr` is declared outside the provided
sources; by analogy with `getBoolPtr` (src) it type-asserts the value at
the key to a string and takes its address, so an absent key or a
non-string value panics and a hit is a non-nil pointer. -/
def Structure.getStrPtr (m : Structure) (key : String) :
    PanicOr (Option String) :=
  match Structure.get? m key with
  | some (Value.str s) => PanicOr.ok (some s)
  | _ => PanicOr.panicked "interface conversion: interface is not string"

/-- The inline Go expression `m[key].(string)`: panics when the key is
absent (nil interface) or the value is not a string. -/
def Structure.getStr (m : Structure) (key : String) : PanicOr String :=
  match Structure.get? m key with
  | some (Value.str s) => PanicOr.ok s
  | _ => PanicOr.panicked "interface conversion: interface is not string"

/-- The remote entity `bunny.DNSZone` as the handlers use it. The
bunny-go struct has pointer fields; fields whose nil-ness the handlers
test (`ID`, and `LogAnonymizationType` via `intStrMapGet`) are options,
the rest are modelled by their dereferenced values. -/
structure DNSZone where
  ID : Option Int := none
  Domain : String := ""
  CustomNameserversEnabled : Bool := false
  Nameserver1 : String := ""
  Nameserver2 : String := ""
  SoaEmail : String := ""
  LoggingEnabled : Bool := false
  LoggingIPAnonymizationEnabled : Bool := false
  LogAnonymizationType : Option Int := none
deriving DecidableEq, Repr

/-- The update payload `bunny.DNSZoneUpdateOptions` with Go zero values
as defaults (`var res bunny.DNSZoneUpdateOptions`). The nameserver and
soa-email fields are pointers in bunny-go, hence options (none = unset). -/
structure DNSZoneUpdateOptions where
  CustomNameserversEnabled : Bool := false
  Nameserver1 : Option String := none
  Nameserver2 : Option String := none
  SoaEmail : Option String := none
  LoggingEnabled : Bool := false
  LoggingIPAnonymizationEnabled : Bool := false
  LogAnonymizationType : Int := 0
deriving DecidableEq, Repr

/-- Diagnostic severity of the plugin SDK's `diag` package. -/
inductive Severity where
  | error
  | warning
deriving DecidableEq, Repr

/-- A single `diag.Diagnostic` (severity and summary). -/
structure Diagnostic where
  severity : Severity
  summary : String
deriving DecidableEq, Repr

/-- `diag.Diagnostics`. -/
abbrev Diagnostics := List Diagnostic

/-- `diag.Diagnostics.HasError`: whether any entry has severity Error. -/
def Diagnostics.hasError (ds : Diagnostics) : Bool :=
  ds.any (fun x => decide (x.severity = Severity.error))

/-- `diag.FromErr`: one error-severity diagnostic from an error. -/
def diagFromErr (e : String) : Diagnostics :=
  [{ severity := Severity.error, summary := e }]

/-- Modelled from the spec: `diagsErrFromErr` is declared outside the
provided sources; per the spec, remote-call and translation errors are
wrapped with an operation-specific message and surfaced as error
diagnostics. -/
def diagsErrFromErr (msg : String) (e : String) : Diagnostics :=
  [{ severity := Severity.error, summary := msg ++ ": " ++ e }]

/-- Error outcomes of the remote bunny API: not-found is a
distinguishable outcome (spec §6). -/
inductive RemoteErr where
  | notFound
  | other (msg : String)
deriving DecidableEq, Repr

/-- The error's message, as `err.Error()` renders it. -/
def RemoteErr.msg : RemoteErr → String
  | RemoteErr.notFound => "404 Not Found"
  | RemoteErr.other m => m

/-- The `bunny.Client` DNS-zone endpoints as a deterministic backend:
each field gives the response of the corresponding remote call. -/
structure Client where
  addResult : String → Except RemoteErr DNSZone :=
    fun _ => Except.error (RemoteErr.other "unused endpoint")
  getResult : Int → Except RemoteErr DNSZone :=
    fun _ => Except.error (RemoteErr.other "unused endpoint")
  updateResult : Int → DNSZoneUpdateOptions → Except RemoteErr DNSZone :=
    fun _ _ => Except.error (RemoteErr.other "unused endpoint")
  deleteResult : Int → Option RemoteErr :=
    fun _ => none

/-- Value of a decimal digit character, `none` for non-digits. -/
def digitVal? (c : Char) : Option Nat :=
  let n := c.toNat
  if 48 ≤ n ∧ n ≤ 57 then some (n - 48) else none

/-- Decimal parse of a non-empty digit sequence. -/
def parseDecNat : List Char → Option Nat
  | [] => none
  | cs =>
      cs.foldl
        (fun acc c =>
          match acc, digitVal? c with
          | some n, some v => some (n * 10 + v)
          | _, _ => none)
        (some 0)

/-- Decimal parse of an optionally signed integer string
(`strconv.ParseInt(s, 10, ...)` syntax: optional sign, then digits). -/
def parseInt? (s : String) : Option Int :=
  match s.data with
  | [] => none
  | c :: rest =>
      if c = '-' then (parseDecNat rest).map (fun n => -(n : Int))
      else if c = '+' then (parseDecNat rest).map (fun n => (n : Int))
      else (parseDecNat (c :: rest)).map (fun n => (n : Int))

/-- Modelled from the spec: `getIDAsInt64` is declared outside the
provided sources; the spec (§6) fixes the wire identifier to the decimal
string encoding of a 64-bit integer, so the helper parses the resource
id with `strconv.ParseInt(id, 10, 64)` semantics, failing on malformed
or out-of-range ids. -/
def getIDAsInt64 (d : ResourceData) : Except String Int :=
  match parseInt? d.id with
  | none =>
      Except.error ("could not parse resource id \x22" ++ d.id ++ "\x22 as int64")
  | some i =>
      if i < -9223372036854775808 ∨ 9223372036854775807 < i then
        Except.error ("resource id \x22" ++ d.id ++ "\x22 out of int64 range")
      else Except.ok i

/-- Modelled from the spec: `edgeRuleTriggerTypeToInt` — the lookup the
source calls inside `dnsZoneUpdateFromResource` — is declared outside
the provided sources. The spec (§4.1, §6) describes the lookup performed
at that call site as the closed anonymization-type name→code lookup, so
it is modelled as that lookup. (No theorem depends on its behaviour: the
call site is unreachable, see the panic lemmas below.) -/
def edgeRuleTriggerTypeToInt (triggerType : String) : Except String Int :=
  dnsZoneLoggingAnonymizationTypeToInt triggerType

/-- `dnsZoneUpdateFromResource` (src): builds the update payload from
the resource data. Both block reads go through `structureFromResource`;
an absent/empty block disables the corresponding feature, a present
block enables it, copying the nameserver fields and translating the
anonymization name, where a failed lookup merely disables
ip-anonymization. The Go function's error return is always nil. -/
def dnsZoneUpdateFromResource (d : ResourceData) :
    PanicOr (Except String DNSZoneUpdateOptions) := do
  let customNameservers ← structureFromResource d keyDnsZoneCustomNameservers
  let res1 : DNSZoneUpdateOptions ←
    if structLen customNameservers = 0 then
      pure ({ CustomNameserversEnabled := false } : DNSZoneUpdateOptions)
    else do
      let cns := customNameservers.getD []
      let ns1 ← Structure.getStrPtr cns keyDnsZoneCustomNameserversNameserver1
      let ns2 ← Structure.getStrPtr cns keyDnsZoneCustomNameserversNameserver2
      let soa ← Structure.getStrPtr cns keyDnsZoneCustomNameserversSoaEmail
      pure ({ CustomNameserversEnabled := true, Nameserver1 := ns1,
              Nameserver2 := ns2, SoaEmail := soa } : DNSZoneUpdateOptions)
  let logging ← structureFromResource d keyDnsZoneLogging
  let res2 : DNSZoneUpdateOptions ←
    if structLen logging = 0 then
      pure ({ res1 with LoggingEnabled := false,
                        LoggingIPAnonymizationEnabled := false } : DNSZoneUpdateOptions)
    else do
      let s ← Structure.getStr (logging.getD []) keyDnsZoneLoggingIpAnonymization
      match edgeRuleTriggerTypeToInt s with
      | Except.error _ =>
          pure ({ res1 with LoggingEnabled := true,
                            LoggingIPAnonymizationEnabled := false } : DNSZoneUpdateOptions)
      | Except.ok t =>
          pure ({ res1 with LoggingEnabled := true,
                            LoggingIPAnonymizationEnabled := true,
                            LogAnonymizationType := t } : DNSZoneUpdateOptions)
  pure (Except.ok res2)

/-- `dnsZoneToResource` (src): writes a remote entity into the resource
data. The Go function mutates `d` through a pointer, so the state
mutated so far is returned even when the anonymization code→name lookup
fails; the error wraps via `fmt.Errorf("%s: %w", anonymizationType, err)`
where `anonymizationType` is the zero-valued name. `d.Set` on
schema-conforming values cannot fail, so its error branches are not
represented. -/
def dnsZoneToResource (dnsZone : DNSZone) (d : ResourceData) :
    ResourceData × Option String :=
  let d := match dnsZone.ID with
    | some i => { d with id := toString i }
    | none => d
  let d := { d with domain := dnsZone.Domain }
  let customNameserversSettings : Structure :=
    [(keyDnsZoneCustomNameserversEnabled, Value.boolV dnsZone.CustomNameserversEnabled),
     (keyDnsZoneCustomNameserversNameserver1, Value.str dnsZone.Nameserver1),
     (keyDnsZoneCustomNameserversNameserver2, Value.str dnsZone.Nameserver2),
     (keyDnsZoneCustomNameserversSoaEmail, Value.str dnsZone.SoaEmail)]
  let d := { d with customNameservers := [customNameserversSettings] }
  match intStrMapGet dnsZoneLoggingAnonymizationTypesInt
      dnsZone.LogAnonymizationType with
  | Except.error e => (d, some (": " ++ e))
  | Except.ok anonymizationType =>
      let loggingSettings : Structure :=
        [(keyDnsZoneLoggingEnabled, Value.boolV dnsZone.LoggingEnabled),
         (keyDnsZoneLoggingIpAnonymizationEnabled,
           Value.boolV dnsZone.LoggingIPAnonymizationEnabled),
         (keyDnsZoneLoggingIpAnonymization, Value.str anonymizationType)]
      ({ d with logging := [loggingSettings] }, none)

/-- Outcome of running a handler: a normal return with the final
resource data and diagnostics, or a Go panic (message), with the
resource data as mutated up to the panic. -/
inductive Outcome where
  | ret (d : ResourceData) (diags : Diagnostics)
  | panicked (d : ResourceData) (msg : String)
deriving DecidableEq, Repr

/-- `resourceDnsZoneUpdate` (src): build the payload, resolve the id,
call the remote update, then write the response back and stamp the
last-updated timestamp (`time.Now` is the `now` parameter; `d.Set` of
the timestamp cannot fail, so the warning branch is not represented). -/
def resourceDnsZoneUpdate (d : ResourceData) (clt : Client) (now : String) :
    Outcome :=
  match dnsZoneUpdateFromResource d with
  | PanicOr.panicked m => Outcome.panicked d m
  | PanicOr.ok (Except.error e) =>
      Outcome.ret d (diagsErrFromErr "converting resource to API type failed" e)
  | PanicOr.ok (Except.ok dnsZone) =>
      match getIDAsInt64 d with
      | Except.error e => Outcome.ret d (diagFromErr e)
      | Except.ok i =>
          match clt.updateResult i dnsZone with
          | Except.error e =>
              Outcome.ret d
                (diagsErrFromErr "updating dns zone via API failed" (RemoteErr.msg e))
          | Except.ok updatedDnsZone =>
              match dnsZoneToResource updatedDnsZone d with
              | (d2, some e) =>
                  Outcome.ret d2
                    (diagsErrFromErr
                      "converting api type to resource data after successful update failed" e)
              | (d2, none) => Outcome.ret { d2 with lastUpdated := now } []

/-- `resourceDnsZoneCreate` (src): remote Add with the domain, record
the returned id and a timestamp, then run Update for the remaining
fields; if Update returns error diagnostics, append an error-severity
summary and best-effort populate from the Add response. Dereferencing a
nil Add-response ID panics. -/
def resourceDnsZoneCreate (d : ResourceData) (clt : Client) (now : String) :
    Outcome :=
  match clt.addResult d.domain with
  | Except.error e =>
      Outcome.ret d (diagFromErr ("creating DNS zone failed: " ++ RemoteErr.msg e))
  | Except.ok dnsZone =>
      match dnsZone.ID with
      | none =>
          Outcome.panicked d
            "runtime error: invalid memory address or nil pointer dereference"
      | some i =>
          let d1 := { d with id := toString i, lastUpdated := now }
          match resourceDnsZoneUpdate d1 clt now with
          | Outcome.panicked d2 m => Outcome.panicked d2 m
          | Outcome.ret d2 diags =>
              if Diagnostics.hasError diags then
                let diags2 := diags ++
                  [{ severity := Severity.error,
                     summary := "setting DNS zone attributes via update failed" }]
                match dnsZoneToResource dnsZone d2 with
                | (d3, some e) =>
                    Outcome.ret d3 (diags2 ++
                      [{ severity := Severity.error,
                         summary := "converting api-type to resource data failed: " ++ e }])
                | (d3, none) => Outcome.ret d3 diags2
              else Outcome.ret d2 []

/-- `resourceDnsZoneRead` (src): resolve the id, fetch the entity, write
it into the resource data; every failure is returned as error
diagnostics. -/
def resourceDnsZoneRead (d : ResourceData) (clt : Client) :
    ResourceData × Diagnostics :=
  match getIDAsInt64 d with
  | Except.error e => (d, diagFromErr e)
  | Except.ok i =>
      match clt.getResult i with
      | Except.error e =>
          (d, diagsErrFromErr "could not retrieve DNS zone" (RemoteErr.msg e))
      | Except.ok dnsZone =>
          match dnsZoneToResource dnsZone d with
          | (d2, some e) =>
              (d2, diagsErrFromErr
                "converting api type to resource data after successful read failed" e)
          | (d2, none) => (d2, [])

/-- `resourceDnsZoneDelete` (src): resolve the id, call the remote
delete; any error — not-found included — is returned as error
diagnostics, and only on success is the local id cleared. -/
def resourceDnsZoneDelete (d : ResourceData) (clt : Client) :
    ResourceData × Diagnostics :=
  match getIDAsInt64 d with
  | Except.error e => (d, diagFromErr e)
  | Except.ok i =>
      match clt.deleteResult i with
      | some e => (d, diagsErrFromErr "could not delete DNS zone" (RemoteErr.msg e))
      | none => ({ d with id := "" }, [])

/-- C1 concrete state: a tracked zone with id 7. -/
def dDeleteNF : ResourceData := { id := "7", domain := "gone.example" }

/-- C1 backend: the remote delete reports not-found for every id. -/
def cltDeleteNF : Client := { deleteResult := fun _ => some RemoteErr.notFound }

/-- C1 witness state. -/
def dDeleteNFw : ResourceData := { id := "8", domain := "gone2.example" }

/-- C1 witness backend. -/
def cltDeleteNFw : Client := { deleteResult := fun _ => some RemoteErr.notFound }

/-- C2 backend: the remote create succeeds, assigning id 42. -/
def cltCreate42 : Client :=
  { addResult := fun dom => Except.ok { ID := some 42, Domain := dom } }

/-- C3 backend: the remote create succeeds, assigning id 7. -/
def cltCreate7 : Client :=
  { addResult := fun dom => Except.ok { ID := some 7, Domain := dom } }

/-- C5 state with the custom-nameserver block absent. -/
def dNsAbsent : ResourceData := { id := "1", domain := "five.example" }

/-- C5 state with the custom-nameserver block present. -/
def dNsPresent : ResourceData :=
  { id := "1", domain := "five.example",
    customNameservers :=
      [[(keyDnsZoneCustomNameserversEnabled, Value.boolV true),
        (keyDnsZoneCustomNameserversSoaEmail, Value.str "admin@five.example"),
        (keyDnsZoneCustomNameserversNameserver1, Value.str "ns1.five.example"),
        (keyDnsZoneCustomNameserversNameserver2, Value.str "ns2.five.example")]] }

/-- C6 state: logging block present with an unrecognized anonymization name. -/
def dLoggingBogus : ResourceData :=
  { id := "1", domain := "six.example",
    logging :=
      [[(keyDnsZoneLoggingEnabled, Value.boolV true),
        (keyDnsZoneLoggingIpAnonymization, Value.str "bogus")]] }

/-- C6 backend: the remote update would succeed. -/
def cltUpdateOk : Client :=
  { updateResult := fun i _ =>
      Except.ok { ID := some i, Domain := "six.example", LogAnonymizationType := some 0 } }

/-- C7 state: a tracked zone with id 5. -/
def dUpdateFail : ResourceData := { id := "5", domain := "seven.example" }

/-- C7 backend: the remote update call always fails. -/
def cltUpdateFail : Client :=
  { updateResult := fun _ _ => Except.error (RemoteErr.other "backend unavailable") }

/-- C9 backend: a deterministic fake that assigns id 9 on create, would
apply updates, and serves reads from the stored entity. -/
def cltRoundTrip : Client :=
  { addResult := fun dom =>
      Except.ok { ID := some 9, Domain := dom, LogAnonymizationType := some 0 },
    updateResult := fun i _ =>
      Except.ok { ID := some i, Domain := "roundtrip.example", LogAnonymizationType := some 0 },
    getResult := fun i =>
      Except.ok { ID := some i, Domain := "roundtrip.example", LogAnonymizationType := some 0 } }

/-- C4 concrete state: a tracked zone whose remote record is gone. -/
def dReadGone : ResourceData := { id := "999", domain := "dropped.example" }

/-- C4 backend: the remote get reports not-found for every id. -/
def cltReadGone : Client := { getResult := fun _ => Except.error RemoteErr.notFound }

/-- C4 witness state. -/
def dReadGoneW : ResourceData := { id := "998", domain := "dropped2.example" }

/-- C4 witness backend. -/
def cltReadGoneW : Client := { getResult := fun _ => Except.error RemoteErr.notFound }

/-- C10 witness entity: remote response carrying unknown anonymization code 7. -/
def zUnknownCode : DNSZone :=
  { ID := some 1, Domain := "ten.example", LoggingEnabled := true,
    LogAnonymizationType := some 7 }

/-- C10 witness state. -/
def dReadUnknownCode : ResourceData := { id := "1", domain := "ten.example" }

/-- C10 witness backend: the remote get succeeds with the bad entity. -/
def cltReadUnknownCode : Client := { getResult := fun _ => Except.ok zUnknownCode }

/-- Claim C1, counterexample: with the remote delete reporting
not-found, Delete does not return success — it returns error
diagnostics, refuting the claim at this input. -/
theorem c1_counterexample :
    Diagnostics.hasError (resourceDnsZoneDelete dDeleteNF cltDeleteNF).2 = true :=
  rfl

/-- Claim C1, amended: for every Delete invocation where the remote
delete call reports not-found, Delete returns an error diagnostic like
any other failure and leaves the state (including the id) unchanged;
deletion is therefore not idempotent — a second Delete against a
backend reporting not-found errors. -/
theorem c1_amended_delete_not_found (d : ResourceData) (clt : Client) (i : Int)
    (h1 : getIDAsInt64 d = Except.ok i)
    (h2 : clt.deleteResult i = some RemoteErr.notFound) :
    Diagnostics.hasError (resourceDnsZoneDelete d clt).2 = true ∧
      (resourceDnsZoneDelete d clt).1 = d := by
  simp [resourceDnsZoneDelete, h1, h2, diagsErrFromErr, Diagnostics.hasError]

/-- Claim C1, witness for the amended theorem at id 8. -/
theorem c1_amended_witness :
    Diagnostics.hasError (resourceDnsZoneDelete dDeleteNFw cltDeleteNFw).2 = true ∧
      (resourceDnsZoneDelete dDeleteNFw cltDeleteNFw).1 = dDeleteNFw :=
  c1_amended_delete_not_found dDeleteNFw cltDeleteNFw 8 rfl rfl

/-- Claim C2, code behaviour: when the remote create succeeds (id 42),
Create never surfaces the follow-up failure as diagnostics of any
severity — the follow-up Update panics while building its payload
(`structureFromResource` reads the out-of-schema headers key), so
Create ends in a panic instead of a success-with-diagnostics return. -/
theorem c2_create_panics_before_diagnostics :
    resourceDnsZoneCreate { domain := "example.com" } cltCreate42 "t2" =
      Outcome.panicked
        { domain := "example.com", id := "42", lastUpdated := "t2" }
        goNilInterfaceConversion :=
  rfl

/-- Claim C3, code behaviour: Create records the returned identifier
(here "7") in the state before invoking the follow-up Update — the
panicked outcome still carries id "7" — but the Update panics during
payload construction, so the populate-from-create-response fallback for
a failed Update is unreachable. -/
theorem c3_create_records_id_then_panics :
    resourceDnsZoneCreate { domain := "c3.example" } cltCreate7 "t3" =
      Outcome.panicked
        { domain := "c3.example", id := "7", lastUpdated := "t3" }
        goNilInterfaceConversion :=
  rfl

/-- Claim C4, counterexample: with the remote get reporting not-found,
Read returns error diagnostics and does not clear the id — there is no
distinguishable resource-gone result, refuting the claim at this
input. -/
theorem c4_counterexample :
    Diagnostics.hasError (resourceDnsZoneRead dReadGone cltReadGone).2 = true ∧
      (resourceDnsZoneRead dReadGone cltReadGone).1.id = "999" :=
  ⟨rfl, rfl⟩

/-- Claim C4, amended: for every Read invocation whose remote get
reports not-found, Read returns a generic error diagnostic (the wrapped
could-not-retrieve error) and leaves the state, id included,
unchanged. -/
theorem c4_amended_read_not_found (d : ResourceData) (clt : Client) (i : Int)
    (h1 : getIDAsInt64 d = Except.ok i)
    (h2 : clt.getResult i = Except.error RemoteErr.notFound) :
    Diagnostics.hasError (resourceDnsZoneRead d clt).2 = true ∧
      (resourceDnsZoneRead d clt).1 = d := by
  simp [resourceDnsZoneRead, h1, h2, diagsErrFromErr, Diagnostics.hasError]

/-- Claim C4, witness for the amended theorem at id 998. -/
theorem c4_amended_witness :
    Diagnostics.hasError (resourceDnsZoneRead dReadGoneW cltReadGoneW).2 = true ∧
      (resourceDnsZoneRead dReadGoneW cltReadGoneW).1 = dReadGoneW :=
  c4_amended_read_not_found dReadGoneW cltReadGoneW 998 rfl rfl

/-- Claim C5, code behaviour: the update payload is never built — with
the custom-nameserver block absent and equally with it present,
`dnsZoneUpdateFromResource` panics because `structureFromResource`
reads the headers key, which is not in the dns-zone schema, so no
payload with the claimed enabled flag and fields exists. -/
theorem c5_payload_never_built :
    dnsZoneUpdateFromResource dNsAbsent =
        PanicOr.panicked goNilInterfaceConversion ∧
      dnsZoneUpdateFromResource dNsPresent =
        PanicOr.panicked goNilInterfaceConversion :=
  ⟨rfl, rfl⟩

/-- Claim C6, code behaviour: with a logging block present holding an
unrecognized anonymization name, Update does not proceed and no payload
with logging enabled and ip-anonymization disabled is built — Update
panics in `structureFromResource` before the anonymization lookup
runs. -/
theorem c6_update_panics_on_logging_block :
    resourceDnsZoneUpdate dLoggingBogus cltUpdateOk "t6" =
      Outcome.panicked dLoggingBogus goNilInterfaceConversion :=
  rfl

/-- Claim C7, code behaviour: the remote update call is unreachable —
Update panics while building the payload, before resolving the id or
contacting the backend (whose update here always fails), so no Update
invocation exists in which the remote update call fails; the panic does
leave the cached state unchanged. -/
theorem c7_remote_update_unreachable :
    resourceDnsZoneUpdate dUpdateFail cltUpdateFail "t7" =
      Outcome.panicked dUpdateFail goNilInterfaceConversion :=
  rfl

/-- Claim C8: the anonymization enum accepts exactly remove_octet (code
0) and drop_ip (code 1); both names round-trip name→code→name, and
every other string fails the forward lookup with an error naming the
invalid input. -/
theorem c8_enum_roundtrip :
    dnsZoneLoggingAnonymizationTypeToInt "remove_octet" = Except.ok 0 ∧
    dnsZoneLoggingAnonymizationTypeToInt "drop_ip" = Except.ok 1 ∧
    intStrMapGet dnsZoneLoggingAnonymizationTypesInt (some 0) =
      Except.ok "remove_octet" ∧
    intStrMapGet dnsZoneLoggingAnonymizationTypesInt (some 1) =
      Except.ok "drop_ip" ∧
    ∀ s : String, s ≠ "remove_octet" → s ≠ "drop_ip" →
      dnsZoneLoggingAnonymizationTypeToInt s =
        Except.error ("unsupported IP anonymization type: \x22" ++ s ++ "\x22") := by
  refine ⟨rfl, rfl, rfl, rfl, ?_⟩
  intro s h1 h2
  have e1 : ¬ ("remove_octet" = s) := fun h => h1 h.symm
  have e2 : ¬ ("drop_ip" = s) := fun h => h2 h.symm
  simp [dnsZoneLoggingAnonymizationTypeToInt,
        dnsZoneLoggingAnonymizationTypesStr, List.find?, e1, e2]

/-- Claim C8, witness: the unrecognized name both fails with the error
naming it. -/
theorem c8_enum_witness :
    dnsZoneLoggingAnonymizationTypeToInt "both" =
      Except.error ("unsupported IP anonymization type: \x22both\x22") :=
  c8_enum_roundtrip.2.2.2.2 "both" (by decide) (by decide)

/-- Claim C9, code behaviour: against a deterministic fake backend,
Create panics inside the follow-up Update for a valid desired-state
document, so the create→update→read round trip never completes and no
cached state document is produced to compare with Read's. -/
theorem c9_roundtrip_never_completes :
    resourceDnsZoneCreate { domain := "roundtrip.example" } cltRoundTrip "t9" =
      Outcome.panicked
        { domain := "roundtrip.example", id := "9", lastUpdated := "t9" }
        goNilInterfaceConversion :=
  rfl

/-- Claim C10: for every Read invocation whose remote response carries
an anonymization code other than 0 and 1, the code→name translation in
`dnsZoneToResource` fails and Read reports error diagnostics even
though the remote call succeeded — the reverse lookup has no
degrade-not-fail path. -/
theorem c10_read_error_on_unknown_code (d : ResourceData) (clt : Client)
    (i c : Int) (z : DNSZone)
    (h1 : getIDAsInt64 d = Except.ok i)
    (h2 : clt.getResult i = Except.ok z)
    (h3 : z.LogAnonymizationType = some c)
    (h4 : c ≠ 0) (h5 : c ≠ 1) :
    Diagnostics.hasError (resourceDnsZoneRead d clt).2 = true := by
  have e0 : ¬ ((0 : Int) = c) := fun h => h4 h.symm
  have e1 : ¬ ((1 : Int) = c) := fun h => h5 h.symm
  simp [resourceDnsZoneRead, h1, h2, dnsZoneToResource, h3, intStrMapGet,
        dnsZoneLoggingAnonymizationTypesInt, reverseStrIntMap,
        dnsZoneLoggingAnonymizationTypesStr, List.find?, e0, e1,
        diagsErrFromErr, Diagnostics.hasError]

/-- Claim C10, witness at code 7. -/
theorem c10_read_witness :
    Diagnostics.hasError
      (resourceDnsZoneRead dReadUnknownCode cltReadUnknownCode).2 = true :=
  c10_read_error_on_unknown_code dReadUnknownCode cltReadUnknownCode 1 7
    zUnknownCode rfl rfl rfl (by decide) (by decide)

end BunnyDns
